import Mathlib

/-!
Verification of the frogmouth forge / bookmark core
(src/frogmouth/utility/forge.py and src/frogmouth/data/github_stars.py)
against its natural-language specification.

The Python source is shallowly embedded: the HTTP boundary is a probe
oracle (a function from a URL to the outcome of the request), the
paginated star feed is a list of page-fetch outcomes, and the
filesystem is a map from paths to file contents.  Fallible code returns
an `Except` value whose error constructor names the Python exception
class that escapes, and code that swallows a network failure into a
`None` result returns `Option`.
-/

/-! ## Timestamps and the strptime format used by the star importer -/

/-- A naive datetime value, the result of a successful
`datetime.strptime(s, "%Y-%m-%dT%H:%M:%SZ")` call. -/
structure Timestamp where
  year : Nat
  month : Nat
  day : Nat
  hour : Nat
  minute : Nat
  second : Nat
deriving DecidableEq

/-- Leap-year rule used by Python's `datetime` for day-of-month validation. -/
def isLeapYear (y : Nat) : Bool :=
  y % 4 = 0 && (y % 100 ≠ 0 || y % 400 = 0)

/-- Number of days in a month, as validated by the `datetime` constructor. -/
def daysInMonth (y m : Nat) : Nat :=
  if m = 2 then (if isLeapYear y then 29 else 28)
  else if m = 4 ∨ m = 6 ∨ m = 9 ∨ m = 11 then 30
  else 31

/-- Value of a run of decimal digit characters. -/
def digitsToNat (ds : List Char) : Nat :=
  ds.foldl (fun n c => n * 10 + (c.toNat - 48)) 0

/-- Field `%Y` of `strptime`: exactly four decimal digits. -/
def yearField (cs : List Char) : Option (Nat × List Char) :=
  let ds := cs.takeWhile Char.isDigit
  if ds.length = 4 then some (digitsToNat ds, cs.dropWhile Char.isDigit) else none

/-- A one- or two-digit numeric `strptime` field whose value must lie in
`lo..hi` (the `%m`, `%d`, `%H`, `%M` and `%S` fields; for `%S`, values 60
and 61 pass the `strptime` regex but are then rejected by the `datetime`
constructor, so the observable accepted range is `0..59`). -/
def numField (lo hi : Nat) (cs : List Char) : Option (Nat × List Char) :=
  let ds := cs.takeWhile Char.isDigit
  if 1 ≤ ds.length ∧ ds.length ≤ 2 ∧ lo ≤ digitsToNat ds ∧ digitsToNat ds ≤ hi then
    some (digitsToNat ds, cs.dropWhile Char.isDigit)
  else none

/-- A literal character of the `strptime` format string. -/
def litField (c : Char) : List Char → Option (List Char)
  | [] => none
  | d :: rest => if d = c then some rest else none

/-- Embedding of `datetime.strptime(s, "%Y-%m-%dT%H:%M:%SZ")` as used at
forge.py line 218: `some` is a successful parse, `none` is the
`ValueError` raised on a malformed timestamp.  The whole string must be
consumed, the year must be at least `MINYEAR = 1`, and the day must fit
the month. -/
def strptime_github (s : String) : Option Timestamp := do
  let (y, r1) ← yearField s.data
  let r2 ← litField '-' r1
  let (mo, r3) ← numField 1 12 r2
  let r4 ← litField '-' r3
  let (d, r5) ← numField 1 31 r4
  let r6 ← litField 'T' r5
  let (h, r7) ← numField 0 23 r6
  let r8 ← litField ':' r7
  let (mi, r9) ← numField 0 59 r8
  let r10 ← litField ':' r9
  let (sec, r11) ← numField 0 59 r10
  let r12 ← litField 'Z' r11
  if r12 = [] ∧ 1 ≤ y ∧ d ≤ daysInMonth y mo then
    pure (Timestamp.mk y mo d h mi sec)
  else
    none

/-! ## The raw forge URL resolver (`build_raw_forge_url`, forge.py 13-60)

The HTTP boundary is a probe oracle: for each URL, the outcome of the
`client.head(url, follow_redirects=True, ...)` call together with the
subsequent `response.raise_for_status()`. -/

/-- Outcome of probing one URL.  `transportError` is a `RequestError`
raised by the `HEAD` request itself (DNS failure, refused connection,
timeout, malformed URL); `httpError` is a response whose
`raise_for_status()` raises `HTTPStatusError` (non-2xx status);
`success` is a response with a successful status code. -/
inductive ProbeResult
  | success
  | httpError
  | transportError
deriving DecidableEq

/-- Field lookup for the keyword substitution `url_format.format(owner=...,
repository=..., branch=..., file=...)`.  The four forge templates of the
source use exactly these field names; an unknown name (which in Python
would raise `KeyError`) is mapped to the empty string. -/
def templateFieldValue (owner repository branch file : String) (name : String) : String :=
  if name = "owner" then owner
  else if name = "repository" then repository
  else if name = "branch" then branch
  else if name = "file" then file
  else ""

/-- Substitution pass of Python's `str.format` over the template's
characters: each field reference between an opening and a closing brace
is replaced by the named value, scanning the original template once,
left to right.  The fuel argument (initialised to the template length,
which bounds the number of steps) only discharges termination; it is
never exhausted on a brace-balanced template, and every template in the
source is brace-balanced. -/
def substFields (owner repository branch file : String) : Nat → List Char → List Char
  | 0, _ => []
  | _ + 1, [] => []
  | fuel + 1, c :: rest =>
    if c = '\x7b' then
      (templateFieldValue owner repository branch file
          (String.mk (rest.takeWhile (fun d => d != '\x7d')))).data ++
        substFields owner repository branch file fuel
          ((rest.dropWhile (fun d => d != '\x7d')).drop 1)
    else
      c :: substFields owner repository branch file fuel rest

/-- Embedding of `url_format.format(owner=owner, repository=repository,
branch=test_branch, file=desired_file)` from forge.py lines 39-44. -/
def formatUrl (url_format owner repository branch file : String) : String :=
  String.mk (substFields owner repository branch file url_format.data.length url_format.data)

/-- Line 36 of forge.py: `desired_file = desired_file or "README.md"`.
Python's `or` takes the right operand when the left is falsy, i.e. when
it is `None` or the empty string. -/
def effectiveFile : Option String → String
  | some f => if f = "" then "README.md" else f
  | none => "README.md"

/-- Line 38 of forge.py: `(branch,) if branch else ("main", "master")`.
The condition is Python truthiness, so both `None` and the empty string
select the `("main", "master")` pair. -/
def candidateBranches : Option String → List String
  | some b => if b = "" then ["main", "master"] else [b]
  | none => ["main", "master"]

/-- The `for test_branch in ...` loop of forge.py lines 38-59, returning
the function result together with the list of URLs actually probed, in
probe order.  A `RequestError` from the `HEAD` call returns `None` from
the whole function; a successful status returns the URL; an
`HTTPStatusError` from `raise_for_status()` falls through to the next
candidate; falling off the loop returns `None`. -/
def resolveLoop (probe : String → ProbeResult) (url_format owner repository file : String) :
    List String → Option String × List String
  | [] => (none, [])
  | b :: rest =>
    let url := formatUrl url_format owner repository b file
    match probe url with
    | ProbeResult.transportError => (none, [url])
    | ProbeResult.success => (some url, [url])
    | ProbeResult.httpError =>
      ((resolveLoop probe url_format owner repository file rest).1,
        url :: (resolveLoop probe url_format owner repository file rest).2)

/-- Embedding of `build_raw_forge_url` (forge.py 13-60), instrumented
with the list of probed URLs. -/
def build_raw_forge_url_probed (probe : String → ProbeResult)
    (url_format owner repository : String) (branch desiredFile : Option String) :
    Option String × List String :=
  resolveLoop probe url_format owner repository (effectiveFile desiredFile)
    (candidateBranches branch)

/-- Embedding of `build_raw_forge_url` (forge.py 13-60): the value the
coroutine returns. -/
def build_raw_forge_url (probe : String → ProbeResult)
    (url_format owner repository : String) (branch desiredFile : Option String) :
    Option String :=
  (build_raw_forge_url_probed probe url_format owner repository branch desiredFile).1

/-- The candidate URLs, one per candidate branch, in probe order. -/
def candidateUrls (url_format owner repository : String)
    (branch desiredFile : Option String) : List String :=
  (candidateBranches branch).map fun b =>
    formatUrl url_format owner repository b (effectiveFile desiredFile)

/-- GitHub raw-content template (forge.py line 86). -/
def githubUrlFormat : String :=
  "https://raw.githubusercontent.com/{owner}/{repository}/{branch}/{file}"

/-- GitLab raw-content template (forge.py line 117). -/
def gitlabUrlFormat : String :=
  "https://gitlab.com/{owner}/{repository}/-/raw/{branch}/{file}"

/-- BitBucket raw-content template (forge.py line 148). -/
def bitbucketUrlFormat : String :=
  "https://bitbucket.org/{owner}/{repository}/raw/{branch}/{file}"

/-- Codeberg raw-content template (forge.py line 179), with its extra
literal path separator before the branch segment, kept exactly as in
the source. -/
def codebergUrlFormat : String :=
  "https://codeberg.org/{owner}/{repository}/raw//branch/{branch}/{file}"

/-- Embedding of `build_raw_github_url` (forge.py 63-91). -/
def build_raw_github_url (probe : String → ProbeResult) (owner repository : String)
    (branch desiredFile : Option String) : Option String :=
  build_raw_forge_url probe githubUrlFormat owner repository branch desiredFile

/-- Embedding of `build_raw_gitlab_url` (forge.py 94-122). -/
def build_raw_gitlab_url (probe : String → ProbeResult) (owner repository : String)
    (branch desiredFile : Option String) : Option String :=
  build_raw_forge_url probe gitlabUrlFormat owner repository branch desiredFile

/-- Embedding of `build_raw_bitbucket_url` (forge.py 125-153). -/
def build_raw_bitbucket_url (probe : String → ProbeResult) (owner repository : String)
    (branch desiredFile : Option String) : Option String :=
  build_raw_forge_url probe bitbucketUrlFormat owner repository branch desiredFile

/-- Embedding of `build_raw_codeberg_url` (forge.py 156-184). -/
def build_raw_codeberg_url (probe : String → ProbeResult) (owner repository : String)
    (branch desiredFile : Option String) : Option String :=
  build_raw_forge_url probe codebergUrlFormat owner repository branch desiredFile

/-! Spec-side rendering of the resolver's decision rule, for the
refinement statement of claim C1. -/

/-- True for the probe outcomes the spec calls decisive: a successful
status decides the whole resolution, and so does a transport-level
failure; an ordinary non-success HTTP status does not. -/
def isDecisive : ProbeResult → Bool
  | ProbeResult.httpError => false
  | _ => true

/-- Modelled from the spec wording of the decision rule: the first
candidate whose probe is decisive determines the outcome — the
substituted URL if that probe succeeded, absence if it failed at the
transport level — and exhausting all candidates yields absence. -/
def specOutcome (probe : String → ProbeResult) (urls : List String) : Option String :=
  match urls.find? (fun u => isDecisive (probe u)) with
  | some u => match probe u with
    | ProbeResult.success => some u
    | _ => none
  | none => none

/-- Modelled from the spec wording: the probed candidates are exactly
the non-decisive prefix followed by the first decisive candidate, if
any — nothing beyond the decision point is probed. -/
def specProbed (probe : String → ProbeResult) (urls : List String) : List String :=
  urls.takeWhile (fun u => !isDecisive (probe u)) ++
    (urls.dropWhile (fun u => !isDecisive (probe u))).take 1

/-! ## The star importer (`_import_github_repo_details`, forge.py 187-239)

The paginated feed of a username is modelled as the list of outcomes of
the successive `client.get(next_page_of_results, ...)` calls: element
`k` is what fetching page `k + 1` yields, and in the source the `next`
link of page `k + 1` is present exactly when the feed holds a further
element.  Errors that escape the function are `Except.error`; the
`return None` taken on a caught network error is `Except.ok none`. -/

/-- Python exception classes that can escape the embedded functions. -/
inductive PyError
  | typeError
  | valueError
deriving DecidableEq

/-- One item of a page of the starred feed, as read from the response
JSON: `repo["owner"]["login"]`, `repo["name"]` and the raw
`repo_info["starred_at"]` string. -/
structure StarItem where
  owner : String
  repo_name : String
  starred_at : String
deriving DecidableEq

/-- One entry of the `repo_details` list built by the importer. -/
structure RepoDetail where
  owner : String
  repo_name : String
  starred_at : Timestamp
deriving DecidableEq

/-- Outcome of fetching one page of the starred feed: `fail` covers both
a `RequestError` from the `GET` and an `HTTPStatusError` from
`raise_for_status()` (the source catches the two together); `ok` is a
successful response carrying its decoded star items. -/
inductive PageFetch
  | fail
  | ok (items : List StarItem)
deriving DecidableEq

/-- The truncation test `total_repos is not None and len(repo_details) >=
total_repos` of forge.py lines 229 and 232. -/
def limitReachedB : Option Nat → Nat → Bool
  | some t, n => decide (t ≤ n)
  | none, _ => false

/-- The `for repo_info in stars_response` loop of forge.py lines
215-230: parse the timestamp (a malformed one raises `ValueError`, which
the surrounding `try` does not catch), append the details record, then
break once the accumulated count reaches the limit. -/
def processItems (limit : Option Nat) :
    List StarItem → List RepoDetail → Except PyError (List RepoDetail)
  | [], acc => Except.ok acc
  | item :: rest, acc =>
    match strptime_github item.starred_at with
    | none => Except.error PyError.valueError
    | some ts =>
      let acc' := acc ++ [RepoDetail.mk item.owner item.repo_name ts]
      if limitReachedB limit acc'.length then Except.ok acc'
      else processItems limit rest acc'

/-- The `while next_page_of_results` loop of forge.py lines 203-238,
instrumented with the number of page fetches issued.  A failed fetch is
caught and returns `None`; a parse error propagates; after a page the
loop breaks when the limit is reached, and otherwise follows the `next`
link while one remains. -/
def importPagesT (limit : Option Nat) :
    List PageFetch → List RepoDetail → Nat →
      Except PyError (Option (List RepoDetail)) × Nat
  | [], acc, n => (Except.ok (some acc), n)
  | PageFetch.fail :: _, _, n => (Except.ok none, n + 1)
  | PageFetch.ok items :: rest, acc, n =>
    match processItems limit items acc with
    | Except.error e => (Except.error e, n + 1)
    | Except.ok acc' =>
      if limitReachedB limit acc'.length then (Except.ok (some acc'), n + 1)
      else importPagesT limit rest acc' (n + 1)

/-- Embedding of `_import_github_repo_details(username, total_repos)`
(forge.py 187-239); the feed stands for the starred pages of the given
username. -/
def _import_github_repo_details (limit : Option Nat) (pages : List PageFetch) :
    Except PyError (Option (List RepoDetail)) :=
  (importPagesT limit pages [] 0).1

/-- Number of page requests the importer issues over the given feed. -/
def importFetchCount (limit : Option Nat) (pages : List PageFetch) : Nat :=
  (importPagesT limit pages [] 0).2

/-- Whether the importer's traversal, before satisfying the limit and
without hitting a failed fetch first, reaches a star item whose
`starred_at` does not parse. -/
def importHitsBadItem (limit : Option Nat) : List PageFetch → List RepoDetail → Bool
  | [], _ => false
  | PageFetch.fail :: _, _ => false
  | PageFetch.ok items :: rest, acc =>
    match processItems limit items acc with
    | Except.error _ => true
    | Except.ok acc' =>
      if limitReachedB limit acc'.length then false
      else importHitsBadItem limit rest acc'

/-- Whether the importer's traversal, before satisfying the limit and
without a parse failure first, reaches a page whose fetch fails. -/
def importHitsFetchFailure (limit : Option Nat) : List PageFetch → List RepoDetail → Bool
  | [], _ => false
  | PageFetch.fail :: _, _ => true
  | PageFetch.ok items :: rest, acc =>
    match processItems limit items acc with
    | Except.error _ => false
    | Except.ok acc' =>
      if limitReachedB limit acc'.length then false
      else importHitsFetchFailure limit rest acc'

/-! ## Orchestration (`import_github_stars`, forge.py 242-258)

The `asyncio.gather` of the per-repository resolutions is modelled
explicitly: `n` tasks are launched in list order, each owning its
independent result slot; the scheduler then completes them in an
arbitrary order, writing each task's result into its own slot; the
gathered value reads the slots back in launch order. -/

/-- Result slots of `asyncio.gather`: starting from `n` empty slots,
complete the tasks in the order given by `completion`, each completed
task `i` storing its own result into slot `i`. -/
def runSchedule (tasks : List (Option String)) (completion : List Nat) :
    List (Option (Option String)) :=
  completion.foldl (fun slots i => slots.set i tasks[i]?)
    (List.replicate tasks.length none)

/-- Embedding of `import_github_stars(username, total_repos)` (forge.py
242-258): run the importer over the username's feed, then resolve each
repository concurrently with `build_raw_github_url(owner, repo_name)`
(no branch or file override) under the completion order chosen by the
scheduler.  When the importer returns `None`, the list comprehension
iterates over `None` and raises `TypeError` (the boundary defect noted
in the spec). -/
def import_github_stars (probe : String → ProbeResult) (limit : Option Nat)
    (pages : List PageFetch) (completion : List Nat) :
    Except PyError (List (Option (Option String))) :=
  match _import_github_repo_details limit pages with
  | Except.error e => Except.error e
  | Except.ok none => Except.error PyError.typeError
  | Except.ok (some repo_details) =>
    Except.ok (runSchedule
      (repo_details.map fun repo =>
        build_raw_github_url probe repo.owner repo.repo_name none none)
      completion)

/-! ## The bookmark store (src/frogmouth/data/github_stars.py)

The data-directory collaborator (`data_directory()`, whose module is
not part of the analysed sources) is modelled as an opaque `dataDir`
string, and the filesystem as a map from paths to file contents. -/

/-- The polymorphic `location` of a bookmark: a local `Path` or an
httpx `URL`. -/
inductive Location
  | fsPath (p : String)
  | webUrl (u : String)
deriving DecidableEq

/-- The `GitHubStar` named tuple of github_stars.py lines 16-24. -/
structure GitHubStar where
  title : String
  location : Location
  date_starred : Timestamp
deriving DecidableEq

/-- Embedding of `github_stars_file(username)` (github_stars.py 27-33).
The function returns `data_directory() / "..."` where the file-name
operand is the plain (not `f`-prefixed) string literal
`"{username}_github_stars.json"`, so `username` is never interpolated
and the result does not depend on it. -/
def github_stars_file (dataDir : String) (username : String) : String :=
  dataDir ++ "/" ++ "{username}_github_stars.json"

/-- A Python value reaching `GithubStarEncoder.default` during JSON
serialization of a bookmark list. -/
inductive PyValue
  | ofStr (s : String)
  | ofPath (p : String)
  | ofUrl (u : String)
  | ofDatetime (t : Timestamp)
deriving DecidableEq

/-- Embedding of `GithubStarEncoder.default` (github_stars.py 36-48):
`str(o) if isinstance(o, (Path, URL)) else o`.  A `datetime` is neither
a `Path` nor a `URL`, so it is returned unchanged — still not
JSON-encodable, which makes the encoder loop of `dumps` (the pure-Python
one, selected because `indent=4` is passed) call `default` on it again
without progress. -/
def GithubStarEncoder_default : PyValue → PyValue
  | PyValue.ofPath p => PyValue.ofStr p
  | PyValue.ofUrl u => PyValue.ofStr u
  | o => o

/-- Embedding of `save_bookmarks` (github_stars.py 51-57).  Its body is
`github_stars_file().write_text(dumps(bookmarks, indent=4,
cls=GithubStarEncoder))`, and Python evaluates the call
`github_stars_file()` first; `github_stars_file` has a required
positional parameter `username`, so that call raises `TypeError` before
`dumps` runs or anything is written, whatever the bookmark list. -/
def save_bookmarks (dataDir : String) (bookmarks : List GitHubStar) :
    Except PyError Unit :=
  Except.error PyError.typeError

/-- Embedding of `load_bookmarks` (github_stars.py 60-77).  The
conditional expression first evaluates its condition `(github_stars :=
github_stars_file()).exists()`, and the no-argument call of the
one-parameter function `github_stars_file` raises `TypeError` before
the existence check, whatever the filesystem state (`files` maps a path
to the stored text, `none` when the file is absent). -/
def load_bookmarks (dataDir : String) (files : String → Option String) :
    Except PyError (List GitHubStar) :=
  Except.error PyError.typeError

/-! ## Concrete inputs used by witnesses and counterexamples -/

/-- A probe oracle under which every candidate URL exists. -/
def probeAllOk : String → ProbeResult := fun _ => ProbeResult.success

/-- A well-formed star item. -/
def demoStar : StarItem := StarItem.mk "foo" "bar" "2023-01-01T00:00:00Z"

/-- The details record the importer builds from `demoStar`. -/
def demoDetail : RepoDetail := RepoDetail.mk "foo" "bar" (Timestamp.mk 2023 1 1 0 0 0)

/-- A star item whose `starred_at` does not parse in the fixed format. -/
def badStar : StarItem := StarItem.mk "baz" "qux" "not-a-date"

/-- A probe oracle under which only the `master` candidate of the
GitHub template for `foo/bar` exists; `main` answers with a non-success
status. -/
def probeOnlyMaster : String → ProbeResult := fun u =>
  if u = "https://raw.githubusercontent.com/foo/bar/master/README.md" then
    ProbeResult.success
  else ProbeResult.httpError

/-- A list of two bookmarks whose locations mix a URL and a local
filesystem path. -/
def mixedBookmarks : List GitHubStar :=
  [GitHubStar.mk "frogmouth"
      (Location.webUrl "https://raw.githubusercontent.com/Textualize/frogmouth/main/README.md")
      (Timestamp.mk 2023 1 1 0 0 0),
    GitHubStar.mk "local notes" (Location.fsPath "/home/user/notes.md")
      (Timestamp.mk 2023 6 2 12 30 0)]

/-! ## Helper lemmas -/

/-- The resolver loop realises the spec's decision rule and probes
exactly the candidates up to the decision point. -/
theorem resolveLoop_spec (probe : String → ProbeResult)
    (url_format owner repository file : String) (bs : List String) :
    resolveLoop probe url_format owner repository file bs =
      (specOutcome probe (bs.map fun b => formatUrl url_format owner repository b file),
        specProbed probe (bs.map fun b => formatUrl url_format owner repository b file)) := by
  induction bs with
  | nil => simp [resolveLoop, specOutcome, specProbed]
  | cons b rest ih =>
    cases h : probe (formatUrl url_format owner repository b file) with
    | success =>
      simp [resolveLoop, specOutcome, specProbed, h, isDecisive]
    | transportError =>
      simp [resolveLoop, specOutcome, specProbed, h, isDecisive]
    | httpError =>
      simp only [resolveLoop, h]
      rw [ih]
      simp [specOutcome, specProbed, h, isDecisive]

/-! ## Claims -/

/-- C1: for every forge template, owner, repository, optional branch
(where a supplied branch means a nonempty one: the empty string is the
subject of C10) and optional file, the resolver's outcome is determined
by the probe outcomes exactly as the spec states: the candidates are
the given branch alone if supplied and otherwise `"main"` then
`"master"` in that order; the first candidate probing successfully
yields the substituted URL and nothing later is probed; a non-success
status abandons the candidate and moves on; a transport-level failure
aborts at once with `None` and nothing later is probed; exhaustion
yields `None` without an error. -/
theorem C1_resolver_decision (probe : String → ProbeResult)
    (url_format owner repository : String) (branch desiredFile : Option String)
    (hb : branch ≠ some "") :
    candidateBranches branch =
        (match branch with
          | some b => [b]
          | none => ["main", "master"]) ∧
      build_raw_forge_url probe url_format owner repository branch desiredFile =
        specOutcome probe (candidateUrls url_format owner repository branch desiredFile) ∧
      (build_raw_forge_url_probed probe url_format owner repository branch desiredFile).2 =
        specProbed probe (candidateUrls url_format owner repository branch desiredFile) := by
  refine ⟨?_, ?_, ?_⟩
  · cases branch with
    | none => rfl
    | some b =>
      have hb' : b ≠ "" := fun h => hb (by rw [h])
      simp [candidateBranches, hb']
  · unfold build_raw_forge_url build_raw_forge_url_probed candidateUrls
    rw [resolveLoop_spec]
  · unfold build_raw_forge_url_probed candidateUrls
    rw [resolveLoop_spec]

/-- Witness for C1 at a concrete input: no branch supplied, no file
supplied, an oracle that rejects `main` and accepts `master`. -/
theorem C1_resolver_decision_witness :
    ((none : Option String) ≠ some "") ∧
      (candidateBranches none =
          (match (none : Option String) with
            | some b => [b]
            | none => ["main", "master"]) ∧
        build_raw_forge_url probeOnlyMaster githubUrlFormat "foo" "bar" none none =
          specOutcome probeOnlyMaster (candidateUrls githubUrlFormat "foo" "bar" none none) ∧
        (build_raw_forge_url_probed probeOnlyMaster githubUrlFormat "foo" "bar" none none).2 =
          specProbed probeOnlyMaster (candidateUrls githubUrlFormat "foo" "bar" none none)) :=
  ⟨by decide,
    C1_resolver_decision probeOnlyMaster githubUrlFormat "foo" "bar" none none (by decide)⟩

/-- Processing a page's items can only grow the accumulator up to the
limit: the truncation check runs after every append. -/
theorem processItems_length_le (t : Nat) (items : List StarItem) :
    ∀ (acc acc' : List RepoDetail), acc.length < t →
      processItems (some t) items acc = Except.ok acc' → acc'.length ≤ t := by
  induction items with
  | nil =>
    intro acc acc' hlt h
    simp only [processItems, Except.ok.injEq] at h
    subst h
    omega
  | cons item rest ih =>
    intro acc acc' hlt h
    simp only [processItems] at h
    split at h
    · cases h
    · rename_i ts hp
      split at h
      · rename_i hr
        injection h with h1
        subst h1
        simp only [List.length_append, List.length_cons, List.length_nil]
        omega
      · rename_i hr
        have hlt' : (acc ++ [RepoDetail.mk item.owner item.repo_name ts]).length < t := by
          simp only [limitReachedB, decide_eq_true_eq] at hr
          omega
        exact ih _ acc' hlt' h

/-- The only exception the item loop can raise is the `ValueError` of a
malformed timestamp. -/
theorem processItems_error_valueError (limit : Option Nat) (items : List StarItem) :
    ∀ (acc : List RepoDetail) (e : PyError),
      processItems limit items acc = Except.error e → e = PyError.valueError := by
  induction items with
  | nil => intro acc e h; cases h
  | cons item rest ih =>
    intro acc e h
    simp only [processItems] at h
    split at h
    · injection h with h1
      exact h1.symm
    · split at h
      · cases h
      · exact ih _ e h

/-- Unfolding of the page loop on a successfully processed page. -/
theorem importPagesT_cons_ok (limit : Option Nat) (items : List StarItem)
    (rest : List PageFetch) (acc acc' : List RepoDetail) (n : Nat)
    (hp : processItems limit items acc = Except.ok acc') :
    importPagesT limit (PageFetch.ok items :: rest) acc n =
      if limitReachedB limit acc'.length then (Except.ok (some acc'), n + 1)
      else importPagesT limit rest acc' (n + 1) := by
  simp only [importPagesT, hp]

/-- Unfolding of the page loop on a page whose processing raised. -/
theorem importPagesT_cons_error (limit : Option Nat) (items : List StarItem)
    (rest : List PageFetch) (acc : List RepoDetail) (n : Nat) (e : PyError)
    (hp : processItems limit items acc = Except.error e) :
    importPagesT limit (PageFetch.ok items :: rest) acc n = (Except.error e, n + 1) := by
  simp only [importPagesT, hp]

/-- Invariant of the page loop under a positive limit: when it returns
a list, the list holds at most `limit` entries, and when the limit was
reached exactly, extending the feed with further pages changes neither
the result nor the number of pages fetched. -/
theorem importPagesT_limit_aux (t : Nat) (extra : List PageFetch) (pages : List PageFetch) :
    ∀ (acc : List RepoDetail) (n : Nat) (l : List RepoDetail) (m : Nat),
      acc.length < t →
      importPagesT (some t) pages acc n = (Except.ok (some l), m) →
      l.length ≤ t ∧
        (l.length = t →
          importPagesT (some t) (pages ++ extra) acc n = (Except.ok (some l), m)) := by
  induction pages with
  | nil =>
    intro acc n l m hlt h
    simp only [importPagesT, Prod.mk.injEq, Except.ok.injEq, Option.some.injEq] at h
    obtain ⟨h1, h2⟩ := h
    subst h1
    exact ⟨Nat.le_of_lt hlt, fun hEq => absurd hEq (Nat.ne_of_lt hlt)⟩
  | cons page rest ih =>
    intro acc n l m hlt h
    cases page with
    | fail =>
      simp only [importPagesT, Prod.mk.injEq, Except.ok.injEq] at h
      exact absurd h.1 (by simp)
    | ok items =>
      cases hp : processItems (some t) items acc with
      | error e =>
        rw [importPagesT_cons_error (some t) items rest acc n e hp] at h
        have h1 := congrArg Prod.fst h
        simp at h1
      | ok acc' =>
        rw [importPagesT_cons_ok (some t) items rest acc acc' n hp] at h
        have hle : acc'.length ≤ t := processItems_length_le t items acc acc' hlt hp
        cases hr : limitReachedB (some t) acc'.length with
        | true =>
          rw [hr] at h
          simp only [if_true, Prod.mk.injEq, Except.ok.injEq, Option.some.injEq] at h
          obtain ⟨h1, h2⟩ := h
          subst h1
          subst h2
          refine ⟨hle, fun _ => ?_⟩
          rw [List.cons_append, importPagesT_cons_ok (some t) items (rest ++ extra) acc acc' n hp,
            hr]
          simp
        | false =>
          rw [hr] at h
          simp only [Bool.false_eq_true, if_false] at h
          have hlt' : acc'.length < t := by
            simp only [limitReachedB, decide_eq_false_iff_not] at hr
            omega
          obtain ⟨hle', hext⟩ := ih acc' (n + 1) l m hlt' h
          refine ⟨hle', fun hEq => ?_⟩
          rw [List.cons_append, importPagesT_cons_ok (some t) items (rest ++ extra) acc acc' n hp,
            hr]
          simpa using hext hEq

/-- When the traversal reaches a malformed item, the page loop
propagates the `ValueError`. -/
theorem importPagesT_hits_bad (limit : Option Nat) (pages : List PageFetch) :
    ∀ (acc : List RepoDetail) (n : Nat),
      importHitsBadItem limit pages acc = true →
      (importPagesT limit pages acc n).1 = Except.error PyError.valueError := by
  induction pages with
  | nil => intro acc n h; cases h
  | cons page rest ih =>
    intro acc n h
    cases page with
    | fail => cases h
    | ok items =>
      simp only [importHitsBadItem] at h
      split at h
      · rename_i e hp
        have he := processItems_error_valueError limit items acc e hp
        subst he
        rw [importPagesT_cons_error limit items rest acc n PyError.valueError hp]
      · rename_i acc' hp
        rw [importPagesT_cons_ok limit items rest acc acc' n hp]
        split at h
        · cases h
        · rename_i hr
          rw [if_neg hr]
          exact ih acc' (n + 1) h

/-- When the traversal reaches a failed page fetch, the page loop
returns `None`. -/
theorem importPagesT_hits_fail (limit : Option Nat) (pages : List PageFetch) :
    ∀ (acc : List RepoDetail) (n : Nat),
      importHitsFetchFailure limit pages acc = true →
      (importPagesT limit pages acc n).1 = Except.ok none := by
  induction pages with
  | nil => intro acc n h; cases h
  | cons page rest ih =>
    intro acc n h
    cases page with
    | fail => rfl
    | ok items =>
      simp only [importHitsFetchFailure] at h
      split at h
      · cases h
      · rename_i acc' hp
        rw [importPagesT_cons_ok limit items rest acc acc' n hp]
        split at h
        · cases h
        · rename_i hr
          rw [if_neg hr]
          exact ih acc' (n + 1) h

/-- C6 (amended to positive limits): for every supplied limit of at
least 1 and every feed, the importer never returns more than `limit`
items — the truncation check runs after each appended item, mid-page —
and once the accumulated count has reached the limit, further pages in
the feed change neither the result nor the number of pages fetched, so
no page beyond the satisfying one is requested. -/
theorem C6_truncation (t : Nat) (pages extra : List PageFetch) (l : List RepoDetail)
    (ht : 1 ≤ t)
    (hres : _import_github_repo_details (some t) pages = Except.ok (some l)) :
    l.length ≤ t ∧
      (l.length = t →
        _import_github_repo_details (some t) (pages ++ extra) = Except.ok (some l) ∧
          importFetchCount (some t) (pages ++ extra) = importFetchCount (some t) pages) := by
  have h0 : ([] : List RepoDetail).length < t := by simpa using ht
  have hp : importPagesT (some t) pages [] 0 =
      (Except.ok (some l), importFetchCount (some t) pages) := by
    have h2 : (importPagesT (some t) pages [] 0).2 = importFetchCount (some t) pages := rfl
    have h1 : (importPagesT (some t) pages [] 0).1 = Except.ok (some l) := hres
    rw [← h1, ← h2]
  obtain ⟨h1, h2⟩ :=
    importPagesT_limit_aux t extra pages [] 0 l (importFetchCount (some t) pages) h0 hp
  refine ⟨h1, fun hEq => ?_⟩
  have h3 := h2 hEq
  constructor
  · show (importPagesT (some t) (pages ++ extra) [] 0).1 = Except.ok (some l)
    rw [h3]
  · show (importPagesT (some t) (pages ++ extra) [] 0).2 = importFetchCount (some t) pages
    rw [h3]

/-- Witness for C6 at a concrete input: limit 1 over a page of two
items, extended by a further page that is never fetched. -/
theorem C6_truncation_witness :
    (1 ≤ 1) ∧
      _import_github_repo_details (some 1) [PageFetch.ok [demoStar, demoStar]] =
        Except.ok (some [demoDetail]) ∧
      (([demoDetail] : List RepoDetail).length ≤ 1 ∧
        (([demoDetail] : List RepoDetail).length = 1 →
          _import_github_repo_details (some 1)
              ([PageFetch.ok [demoStar, demoStar]] ++ [PageFetch.fail]) =
              Except.ok (some [demoDetail]) ∧
            importFetchCount (some 1) ([PageFetch.ok [demoStar, demoStar]] ++ [PageFetch.fail]) =
              importFetchCount (some 1) [PageFetch.ok [demoStar, demoStar]])) :=
  ⟨Nat.le.refl, rfl,
    C6_truncation 1 [PageFetch.ok [demoStar, demoStar]] [PageFetch.fail] [demoDetail]
      Nat.le.refl rfl⟩

/-- Counterexample to C6 as stated: with the supplied limit 0 the claim
requires a returned list of no more than 0 items, but the importer
fetches the first page, appends its first item before the first
truncation check, and returns one item. -/
theorem C6_counterexample :
    _import_github_repo_details (some 0) [PageFetch.ok [demoStar]] =
        Except.ok (some [demoDetail]) ∧
      ¬ ([demoDetail] : List RepoDetail).length ≤ 0 :=
  ⟨rfl, by decide⟩

/-- C7 (amended to items the importer actually processes): whenever the
traversal — before satisfying the limit, and before any failed page
fetch — reaches a star item whose `starred_at` does not parse in the
fixed UTC format, the whole import fails with the propagated
`ValueError`: no partial list is returned and the item is not
skipped. -/
theorem C7_malformed_timestamp_fatal (limit : Option Nat) (pages : List PageFetch)
    (h : importHitsBadItem limit pages [] = true) :
    _import_github_repo_details limit pages = Except.error PyError.valueError :=
  importPagesT_hits_bad limit pages [] 0 h

/-- Witness for C7 at a concrete input: an unlimited import whose first
page holds one malformed item. -/
theorem C7_malformed_timestamp_fatal_witness :
    importHitsBadItem none [PageFetch.ok [badStar]] [] = true ∧
      _import_github_repo_details none [PageFetch.ok [badStar]] =
        Except.error PyError.valueError :=
  ⟨rfl, C7_malformed_timestamp_fatal none [PageFetch.ok [badStar]] rfl⟩

/-- Counterexample to C7 as stated: with limit 1, a page carrying a
well-formed item followed by a malformed one satisfies the limit before
the malformed item is parsed, so the import returns a partial list and
no error, although a star item on a page carries an unparsable
`starred_at`. -/
theorem C7_counterexample :
    strptime_github badStar.starred_at = none ∧
      _import_github_repo_details (some 1) [PageFetch.ok [demoStar, badStar]] =
        Except.ok (some [demoDetail]) :=
  ⟨rfl, rfl⟩

/-- C8: whenever fetching a page of the starred feed fails — at the
transport level or with a non-success HTTP status, both caught together
by the source — the importer returns `None`: the items already
accumulated from earlier pages are discarded and no error is raised to
the caller. -/
theorem C8_fetch_failure_absence (limit : Option Nat) (pages : List PageFetch)
    (h : importHitsFetchFailure limit pages [] = true) :
    _import_github_repo_details limit pages = Except.ok none :=
  importPagesT_hits_fail limit pages [] 0 h

/-- Witness for C8 at a concrete input: a successful first page followed
by a failing fetch; the item of page one is discarded. -/
theorem C8_fetch_failure_absence_witness :
    importHitsFetchFailure none [PageFetch.ok [demoStar], PageFetch.fail] [] = true ∧
      _import_github_repo_details none [PageFetch.ok [demoStar], PageFetch.fail] =
        Except.ok none :=
  ⟨rfl, C8_fetch_failure_absence none [PageFetch.ok [demoStar], PageFetch.fail] rfl⟩

/-- Completing every launched task, in whatever order, fills each slot
with its own task's result: the gathered list is the tasks' results in
launch order, independent of the completion order. -/
theorem runSchedule_fills (tasks : List (Option String)) :
    ∀ (order : List Nat) (slots : List (Option (Option String))),
      slots.length = tasks.length →
      (∀ j, j < tasks.length → j ∉ order → slots[j]? = some tasks[j]?) →
      order.foldl (fun s i => s.set i tasks[i]?) slots = tasks.map some := by
  intro order
  induction order with
  | nil =>
    intro slots hlen hinv
    simp only [List.foldl_nil]
    apply List.ext_getElem?
    intro j
    by_cases hj : j < tasks.length
    · rw [hinv j hj (List.not_mem_nil j), List.getElem?_map,
        List.getElem?_eq_getElem hj]
      rfl
    · rw [List.getElem?_eq_none (by omega), List.getElem?_eq_none (by simp; omega)]
  | cons i rest ih =>
    intro slots hlen hinv
    simp only [List.foldl_cons]
    apply ih
    · simp [hlen]
    · intro j hj hnot
      by_cases hij : j = i
      · subst hij
        exact List.getElem?_set_eq_of_lt tasks[j]? (hlen ▸ hj)
      · rw [List.getElem?_set_ne (fun h => hij h.symm)]
        exact hinv j hj (by simp [List.mem_cons, hij, hnot])

/-- C9: for every list of repository identifiers the star importer
produced, the orchestration returns exactly one resolution outcome per
identifier — the outcome of `build_raw_github_url` for that identifier,
with no branch or file override — and the returned list is in the same
order as the input identifiers, whatever the relative completion order
of the concurrently launched resolutions. -/
theorem C9_order_preserved (probe : String → ProbeResult) (limit : Option Nat)
    (pages : List PageFetch) (order : List Nat) (repo_details : List RepoDetail)
    (himp : _import_github_repo_details limit pages = Except.ok (some repo_details))
    (hperm : order.Perm (List.range repo_details.length)) :
    import_github_stars probe limit pages order =
      Except.ok ((repo_details.map fun repo =>
        build_raw_github_url probe repo.owner repo.repo_name none none).map some) := by
  have hfill := runSchedule_fills
    (repo_details.map fun repo =>
      build_raw_github_url probe repo.owner repo.repo_name none none)
    order
    (List.replicate (repo_details.map fun repo =>
      build_raw_github_url probe repo.owner repo.repo_name none none).length none)
    (by simp)
    (fun j hj hnot =>
      absurd (hperm.mem_iff.mpr (List.mem_range.mpr (by simpa using hj))) hnot)
  have hrun : runSchedule (repo_details.map fun repo =>
      build_raw_github_url probe repo.owner repo.repo_name none none) order =
      (repo_details.map fun repo =>
        build_raw_github_url probe repo.owner repo.repo_name none none).map some := hfill
  unfold import_github_stars
  rw [himp]
  show Except.ok (runSchedule (repo_details.map fun repo =>
      build_raw_github_url probe repo.owner repo.repo_name none none) order) =
    Except.ok ((repo_details.map fun repo =>
      build_raw_github_url probe repo.owner repo.repo_name none none).map some)
  rw [hrun]

/-- Witness for C9 at a concrete input: a one-item feed, the completion
order `[0]`, and an oracle under which every URL exists. -/
theorem C9_order_preserved_witness :
    _import_github_repo_details none [PageFetch.ok [demoStar]] =
        Except.ok (some [demoDetail]) ∧
      ([0] : List Nat).Perm (List.range ([demoDetail] : List RepoDetail).length) ∧
      import_github_stars probeAllOk none [PageFetch.ok [demoStar]] [0] =
        Except.ok ((([demoDetail] : List RepoDetail).map fun repo =>
          build_raw_github_url probeAllOk repo.owner repo.repo_name none none).map some) :=
  ⟨rfl, by decide,
    C9_order_preserved probeAllOk none [PageFetch.ok [demoStar]] [0] [demoDetail]
      rfl (by decide)⟩

/-- C2 (code bug): the save-then-load round trip cannot reproduce any
records, because both `save_bookmarks` and `load_bookmarks` call
`github_stars_file()` without its required `username` argument and
raise `TypeError` at once — here shown on a mixed URL/path list and on
an arbitrary filesystem state. -/
theorem C2_roundtrip_broken :
    save_bookmarks "/data" mixedBookmarks = Except.error PyError.typeError ∧
      load_bookmarks "/data" (fun _ => none) = Except.error PyError.typeError :=
  ⟨rfl, rfl⟩

/-- C3 (code bug): the computed bookmarks-file path does not depend on
the username — the file-name literal is not an f-string — so distinct
usernames share one file, against the claim. -/
theorem C3_path_ignores_username (dataDir u1 u2 : String) :
    github_stars_file dataDir u1 = github_stars_file dataDir u2 ∧
      github_stars_file dataDir u1 = dataDir ++ "/" ++ "{username}_github_stars.json" :=
  ⟨rfl, rfl⟩

/-- C4 (code bug): saving never succeeds — every call raises `TypeError`
at the `github_stars_file()` call, before serialization — and even
behind that bug the encoder is not total: `GithubStarEncoder.default`
returns a `datetime` unchanged instead of a JSON-encodable value. -/
theorem C4_save_never_succeeds (dataDir : String) (bookmarks : List GitHubStar) :
    save_bookmarks dataDir bookmarks = Except.error PyError.typeError ∧
      GithubStarEncoder_default (PyValue.ofDatetime (Timestamp.mk 2023 1 1 0 0 0)) =
        PyValue.ofDatetime (Timestamp.mk 2023 1 1 0 0 0) :=
  ⟨rfl, rfl⟩

/-- C5 (code bug): when the bookmarks file does not exist, load does
not return an empty list — it raises `TypeError` at the
`github_stars_file()` call before the existence check runs. -/
theorem C5_load_missing_file_raises :
    load_bookmarks "/data" (fun _ => none) ≠ Except.ok ([] : List GitHubStar) ∧
      load_bookmarks "/data" (fun _ => none) = Except.error PyError.typeError :=
  ⟨fun h => Except.noConfusion h, rfl⟩

/-- C10: calling the resolver with the empty string as branch behaves
exactly as if no branch had been supplied — the empty string is not the
sole candidate, `main` then `master` are probed instead — and an
empty-string desired file is likewise replaced by `README.md`. -/
theorem C10_empty_string_defaults (probe : String → ProbeResult)
    (url_format owner repository : String) (branch desiredFile : Option String) :
    build_raw_forge_url_probed probe url_format owner repository (some "") desiredFile =
        build_raw_forge_url_probed probe url_format owner repository none desiredFile ∧
      candidateBranches (some "") = ["main", "master"] ∧
      build_raw_forge_url_probed probe url_format owner repository branch (some "") =
        build_raw_forge_url_probed probe url_format owner repository branch none ∧
      effectiveFile (some "") = "README.md" := by
  refine ⟨?_, rfl, ?_, rfl⟩
  · unfold build_raw_forge_url_probed
    rfl
  · unfold build_raw_forge_url_probed
    rfl
